import Mathlib

/-! Shallow embedding of the canvas editor component: the drawable-object data
model, the scene surface, the past/future history stacks, and every mutating
entry point of the component.  Stacks are lists whose head is the stack top
(JavaScript push/pop act on the array end; the list head plays that role here,
so pushing is consing).  Opaque JSON snapshot strings are modelled by `Snap`:
serializing a scene always yields a well-formed snapshot, and parsing fails
exactly on malformed text, mirroring JSON.stringify / JSON.parse.  Toast
notifications are recorded in issue order in a `toasts` field and render
requests are counted in `renders`; notifications raised by library-internal
events (the object-added hook) are outside the model, whose entry points are
the component's own functions.  The active selection, a reference held by the
external canvas, is modelled as an index into the scene's object list (the
index is moved together with the object on reordering, so it keeps denoting
the same object a reference would). -/

/-- A drawable object on the canvas.  One constructor per fabric class used by
the component: Rect, Circle, Triangle, Line, IText, Image.  Fields are the
attributes the component reads or writes; Image carries the library-default
fill so that the generic fill-update branch applies to it as in the source. -/
inductive FabricObject where
  | rect (left top : Int) (fill : String) (width height : Int)
  | circle (left top : Int) (fill : String) (radius : Int)
  | triangle (left top : Int) (fill : String) (width height : Int)
  | line (x1 y1 x2 y2 : Int) (stroke : String) (strokeWidth : Int)
  | itext (text : String) (left top : Int) (fontFamily : String) (fill : String) (fontSize : Int)
  | image (left top : Int) (fill : String) (scaledWidth : Int)
  deriving Repr, DecidableEq

/-- The serializable canvas contents: the ordered object list (index 0 paints
first) and the background color.  This is what canvas.toJSON captures; the
active selection is canvas state but is not part of the serialization. -/
structure Scene where
  objects : List FabricObject
  background : String
  deriving Repr, DecidableEq

/-- An opaque JSON snapshot string.  A string produced by
JSON.stringify(canvas.toJSON()) is the well-formed serialization of a scene;
any other text is malformed and JSON.parse throws on it. -/
inductive Snap where
  | wellFormed (data : Scene)
  | malformed
  deriving Repr, DecidableEq

/-- JSON.stringify(canvas.toJSON()): serializing a scene always succeeds and
yields the well-formed snapshot of that scene. -/
def stringifyScene (s : Scene) : Snap :=
  Snap.wellFormed s

/-- JSON.parse on a snapshot string: recovers the scene from a well-formed
snapshot and fails (throws) on malformed text. -/
def parseSnap : Snap → Option Scene
  | Snap.wellFormed d => some d
  | Snap.malformed => none

/-- The component's whole mutable state: the canvas scene, the active
selection (an index into the object list, none when nothing is selected), the
history stacks (head = top), the four style controls (fontSize, fontFamily,
fontColor, elementColor React state), the count of renderAll calls and the
toast notifications issued so far. -/
structure EditorState where
  scene : Scene
  selected : Option Nat
  past : List Snap
  future : List Snap
  fontSize : Int
  fontFamily : String
  fontColor : String
  elementColor : String
  renders : Nat
  toasts : List String
  deriving Repr, DecidableEq

/-- canvas.getActiveObject(): the selected object together with its index, or
none when there is no selection (a stale index behaves like no selection). -/
def getActiveObject (st : EditorState) : Option (Nat × FabricObject) :=
  match st.selected with
  | none => none
  | some i => (st.scene.objects.get? i).map (fun o => (i, o))

/-- saveState: serializes the current scene, pushes it onto past and clears
future.  This is the record operation; it is also the object-modified hook,
which calls saveState directly. -/
def saveState (st : EditorState) : EditorState :=
  { st with past := stringifyScene st.scene :: st.past, future := [] }

/-- undo: returns unchanged when past has at most one entry (the source guard
past.length <= 1, i.e. past is not of the form current :: prev :: rest).
Otherwise pops the top of past, pushes it onto future, and then parses and
loads the new top of past; the pop and push happen before the parse, so a
parse failure leaves the stacks already moved and only the scene untouched.
Loading replaces the scene and discards the active selection. -/
def undo (st : EditorState) : EditorState :=
  match st.past with
  | current :: prev :: rest =>
      let st1 := { st with past := prev :: rest, future := current :: st.future }
      match parseSnap prev with
      | none => st1
      | some sc =>
          { st1 with scene := sc, selected := none, renders := st1.renders + 1,
                     toasts := st1.toasts ++ ["Undo successful!"] }
  | _ => st

/-- redo: returns unchanged when future is empty.  Otherwise pops the top of
future, pushes it onto past, and then parses and loads that popped snapshot;
as in undo the stack moves precede the parse. -/
def redo (st : EditorState) : EditorState :=
  match st.future with
  | nextState :: rest =>
      let st1 := { st with future := rest, past := nextState :: st.past }
      match parseSnap nextState with
      | none => st1
      | some sc =>
          { st1 with scene := sc, selected := none, renders := st1.renders + 1,
                     toasts := st1.toasts ++ ["Redo successful!"] }
  | [] => st

/-- deleteSelected: when an object is selected, removes it (fabric discards
the selection of a removed object), re-renders, toasts and records; with no
selection it returns silently without any toast. -/
def deleteSelected (st : EditorState) : EditorState :=
  match getActiveObject st with
  | none => st
  | some (i, _) =>
      saveState { st with
        scene := { st.scene with objects := st.scene.objects.eraseIdx i },
        selected := none,
        renders := st.renders + 1,
        toasts := st.toasts ++ ["Element deleted!"] }

/-- addShape: builds the shape for the given kind string with the literal
default geometry and the current element color (fill, or stroke for a line),
appends it to the object list, selects it, re-renders and records; an unknown
kind hits the default switch case and returns without any change. -/
def addShape (type : String) (st : EditorState) : EditorState :=
  let shape? : Option FabricObject :=
    match type with
    | "rectangle" => some (FabricObject.rect 100 100 st.elementColor 100 100)
    | "circle" => some (FabricObject.circle 100 100 st.elementColor 50)
    | "triangle" => some (FabricObject.triangle 100 100 st.elementColor 100 100)
    | "line" => some (FabricObject.line 50 100 200 100 st.elementColor 2)
    | _ => none
  match shape? with
  | none => st
  | some shape =>
      saveState { st with
        scene := { st.scene with objects := st.scene.objects ++ [shape] },
        selected := some st.scene.objects.length,
        renders := st.renders + 1 }

/-- addText: appends an editable text object with the literal default content
at (100, 100), styled from the current font controls, selects it and
re-renders.  It does NOT call saveState: no history entry is pushed. -/
def addText (st : EditorState) : EditorState :=
  { st with
    scene := { st.scene with objects := st.scene.objects ++
      [FabricObject.itext "Click to edit text" 100 100 st.fontFamily st.fontColor st.fontSize] },
    selected := some st.scene.objects.length,
    renders := st.renders + 1 }

/-- The completion handler of one image upload (img.onload): appends a fabric
image at the randomized offset (passed in as left/top, Math.random being
outside the model) scaled to width 200 with the library-default fill, then
re-renders, records and toasts.  The new image is not selected. -/
def imageUploadComplete (left top : Int) (st : EditorState) : EditorState :=
  { saveState { st with
      scene := { st.scene with objects := st.scene.objects ++
        [FabricObject.image left top "rgb(0,0,0)" 200] },
      renders := st.renders + 1 }
    with toasts := st.toasts ++ ["Image added!"] }

/-- The style fields pushed onto the selected object by updateSelectedObject:
an i-text object receives the font family, font color (as fill) and font
size; a line receives the element color as stroke; every other object takes
the element color as fill (the source's else branch). -/
def restyled (st : EditorState) : FabricObject → FabricObject
  | FabricObject.itext text l t _ _ _ =>
      FabricObject.itext text l t st.fontFamily st.fontColor st.fontSize
  | FabricObject.line x1 y1 x2 y2 _ sw =>
      FabricObject.line x1 y1 x2 y2 st.elementColor sw
  | FabricObject.rect l t _ w h => FabricObject.rect l t st.elementColor w h
  | FabricObject.circle l t _ r => FabricObject.circle l t st.elementColor r
  | FabricObject.triangle l t _ w h => FabricObject.triangle l t st.elementColor w h
  | FabricObject.image l t _ w => FabricObject.image l t st.elementColor w

/-- updateSelectedObject: run on every change of a style control; when an
object is selected it overwrites that object's relevant style fields (see
restyled) and re-renders.  No saveState call is made. -/
def updateSelectedObject (st : EditorState) : EditorState :=
  match getActiveObject st with
  | none => st
  | some (i, activeObject) =>
      { st with
        scene := { st.scene with objects := st.scene.objects.set i (restyled st activeObject) },
        renders := st.renders + 1 }

/-- canvas.bringForward: swaps the object at index i with its successor and
returns the new list together with the object's new index; at the top of the
list nothing moves. -/
def bringForwardPos (l : List FabricObject) (i : Nat) : List FabricObject × Nat :=
  match l.get? i, l.get? (i + 1) with
  | some a, some b => ((l.set i b).set (i + 1) a, i + 1)
  | _, _ => (l, i)

/-- canvas.sendBackwards: swaps the object at index i with its predecessor
and returns the new list together with the object's new index; at the bottom
of the list nothing moves. -/
def sendBackwardsPos (l : List FabricObject) (i : Nat) : List FabricObject × Nat :=
  match i, l.get? i with
  | 0, _ => (l, 0)
  | j + 1, some a =>
      match l.get? j with
      | some b => ((l.set j a).set (j + 1) b, j)
      | none => (l, j + 1)
  | j + 1, none => (l, j + 1)

/-- moveLayer: with no selection it only toasts the notice and returns.  With
a selection it moves the object one step up or down the z-order, toasts the
direction message, re-renders and records. -/
def moveLayer (direction : String) (st : EditorState) : EditorState :=
  match getActiveObject st with
  | none => { st with toasts := st.toasts ++ ["Please select an element first!"] }
  | some (i, _) =>
      let msg := if direction = "up" then "Moved layer forward" else "Moved layer backward"
      let pair := if direction = "up" then bringForwardPos st.scene.objects i
                  else sendBackwardsPos st.scene.objects i
      saveState { st with
        scene := { st.scene with objects := pair.1 },
        selected := some pair.2,
        renders := st.renders + 1,
        toasts := st.toasts ++ [msg] }

/-- bringToFront: with no selection it only toasts the notice.  With a
selection it moves the object to the end of the list (topmost paint index),
re-renders, records and toasts. -/
def bringToFront (st : EditorState) : EditorState :=
  match getActiveObject st with
  | none => { st with toasts := st.toasts ++ ["Please select an element first!"] }
  | some (i, o) =>
      let objs := st.scene.objects.eraseIdx i ++ [o]
      { saveState { st with
          scene := { st.scene with objects := objs },
          selected := some (objs.length - 1),
          renders := st.renders + 1 }
        with toasts := st.toasts ++ ["Brought to front"] }

/-- sendToBack: with no selection it only toasts the notice.  With a
selection it moves the object to index 0 (bottommost paint index),
re-renders, records and toasts. -/
def sendToBack (st : EditorState) : EditorState :=
  match getActiveObject st with
  | none => { st with toasts := st.toasts ++ ["Please select an element first!"] }
  | some (i, o) =>
      { saveState { st with
          scene := { st.scene with objects := o :: st.scene.objects.eraseIdx i },
          selected := some 0,
          renders := st.renders + 1 }
        with toasts := st.toasts ++ ["Sent to back"] }

/-- The empty scene of a freshly constructed canvas: no objects, white
background. -/
def emptyScene : Scene :=
  { objects := [], background := "#ffffff" }

/-- The component state right after construction, before the mount effect
records the first snapshot: empty scene, no selection, empty stacks, the
literal initial values of the four style controls, and the ready toast the
mount effect issues before saving the initial state. -/
def freshState : EditorState :=
  { scene := emptyScene, selected := none, past := [], future := [],
    fontSize := 20, fontFamily := "Arial", fontColor := "#000000",
    elementColor := "#e2e8f0", renders := 0, toasts := ["Canvas ready!"] }

/-- The mount effect's history setup: saveState on the fresh canvas, leaving
past with exactly the initial empty-scene snapshot. -/
def initCanvas : EditorState :=
  saveState freshState

/-- A sequence of committed edits: each element of the list replaces the
scene (an arbitrary mutation) and is then recorded by saveState, in order. -/
def recordEdits (ds : List Scene) (st : EditorState) : EditorState :=
  ds.foldl (fun s d => saveState { s with scene := d }) st

/-- Recording always clears the redo stack. -/
theorem saveState_future_nil (st : EditorState) : (saveState st).future = [] :=
  rfl

/-- C5: after the mount effect's history setup, past holds exactly the initial
empty-scene snapshot, future is empty, and an immediate undo is a no-op. -/
theorem init_history_singleton_undo_noop :
    initCanvas.past = [stringifyScene emptyScene] ∧
    initCanvas.past.length = 1 ∧
    initCanvas.future = [] ∧
    undo initCanvas = initCanvas :=
  ⟨rfl, rfl, rfl, rfl⟩

/-- C9: addText appends the default-content text object styled from the
current font controls, selects it, re-renders, and pushes no history entry:
past and future are exactly as before. -/
theorem addText_no_record (st : EditorState) :
    addText st = { st with
      scene := { st.scene with objects := st.scene.objects ++
        [FabricObject.itext "Click to edit text" 100 100 st.fontFamily st.fontColor st.fontSize] },
      selected := some st.scene.objects.length,
      renders := st.renders + 1 } ∧
    (addText st).past = st.past ∧
    (addText st).future = st.future :=
  ⟨rfl, rfl, rfl⟩

/-- C10: a floored undo (past has at most one entry) or a floored redo
(future empty) is a total no-op: the whole editor state, the stacks and any
pending redo entries included, is unchanged. -/
theorem floored_undo_redo_noop (st : EditorState) :
    (st.past.length ≤ 1 → undo st = st) ∧ (st.future = [] → redo st = st) := by
  constructor
  · intro h
    match hp : st.past with
    | [] => simp [undo, hp]
    | [a] => simp [undo, hp]
    | a :: b :: rest => rw [hp] at h; simp at h
  · intro h
    simp [redo, h]

/-- A state whose past is at the floor while redo entries are pending. -/
def stFloorA : EditorState :=
  { scene := emptyScene, selected := none, past := [stringifyScene emptyScene],
    future := [Snap.wellFormed emptyScene], fontSize := 20, fontFamily := "Arial",
    fontColor := "#000000", elementColor := "#e2e8f0", renders := 0, toasts := [] }

/-- A state with an empty future stack. -/
def stFloorB : EditorState :=
  { scene := emptyScene, selected := none, past := [stringifyScene emptyScene],
    future := [], fontSize := 20, fontFamily := "Arial",
    fontColor := "#000000", elementColor := "#e2e8f0", renders := 0, toasts := [] }

/-- Witness for C10 at concrete states: the floored undo keeps even the
pending redo entry, and the floored redo changes nothing. -/
theorem floored_undo_redo_noop_witness :
    undo stFloorA = stFloorA ∧ redo stFloorB = stFloorB :=
  ⟨(floored_undo_redo_noop stFloorA).1 (by decide),
   (floored_undo_redo_noop stFloorB).2 rfl⟩

/-- C2: every entry point that records — the object-modified hook (saveState
itself), shape creation of each of the four kinds, image completion, deletion
and the layer moves when a selection exists — leaves the future stack empty,
so no redo is possible until a subsequent undo; in particular after the
sequence record; undo; record the future stack is empty. -/
theorem record_clears_future_everywhere (st : EditorState) (d : Scene) (i : Nat)
    (o : FabricObject) (l t : Int) :
    (saveState st).future = [] ∧
    (addShape "rectangle" st).future = [] ∧
    (addShape "circle" st).future = [] ∧
    (addShape "triangle" st).future = [] ∧
    (addShape "line" st).future = [] ∧
    (imageUploadComplete l t st).future = [] ∧
    (getActiveObject st = some (i, o) →
      (deleteSelected st).future = [] ∧
      (moveLayer "up" st).future = [] ∧
      (moveLayer "down" st).future = [] ∧
      (bringToFront st).future = [] ∧
      (sendToBack st).future = []) ∧
    (saveState (undo (saveState { st with scene := d }))).future = [] := by
  refine ⟨rfl, rfl, rfl, rfl, rfl, rfl, ?_, rfl⟩
  intro h
  exact ⟨by simp [deleteSelected, h, saveState_future_nil],
         by simp [moveLayer, h, saveState_future_nil],
         by simp [moveLayer, h, saveState_future_nil],
         by simp [bringToFront, h, saveState_future_nil],
         by simp [sendToBack, h, saveState_future_nil]⟩

/-- A concrete state with one selected rectangle and a pending redo entry. -/
def stSelRect : EditorState :=
  { scene := { objects := [FabricObject.rect 100 100 "#e2e8f0" 100 100], background := "#ffffff" },
    selected := some 0, past := [stringifyScene emptyScene],
    future := [stringifyScene emptyScene], fontSize := 20, fontFamily := "Arial",
    fontColor := "#000000", elementColor := "#abcdef", renders := 0, toasts := [] }

/-- Witness for C2 at a concrete selected state: deletion and a layer move
both leave the future stack empty. -/
theorem record_clears_future_everywhere_witness :
    (deleteSelected stSelRect).future = [] ∧ (moveLayer "up" stSelRect).future = [] :=
  ⟨((record_clears_future_everywhere stSelRect emptyScene 0
      (FabricObject.rect 100 100 "#e2e8f0" 100 100) 0 0).2.2.2.2.2.2.1 rfl).1,
   ((record_clears_future_everywhere stSelRect emptyScene 0
      (FabricObject.rect 100 100 "#e2e8f0" 100 100) 0 0).2.2.2.2.2.2.1 rfl).2.1⟩

/-- C3: each of the four shape kinds appends an object with the literal
default geometry (100 by 100 at position (100, 100), circle radius 50, line
from (50, 100) to (200, 100) with stroke width 2) taking the current element
color as fill (stroke for the line), selects the new object, re-renders and
records, so the past stack grows by exactly one entry. -/
theorem addShape_defaults_selects_records (st : EditorState) :
    addShape "rectangle" st = saveState { st with
      scene := { st.scene with objects := st.scene.objects ++
        [FabricObject.rect 100 100 st.elementColor 100 100] },
      selected := some st.scene.objects.length,
      renders := st.renders + 1 } ∧
    addShape "circle" st = saveState { st with
      scene := { st.scene with objects := st.scene.objects ++
        [FabricObject.circle 100 100 st.elementColor 50] },
      selected := some st.scene.objects.length,
      renders := st.renders + 1 } ∧
    addShape "triangle" st = saveState { st with
      scene := { st.scene with objects := st.scene.objects ++
        [FabricObject.triangle 100 100 st.elementColor 100 100] },
      selected := some st.scene.objects.length,
      renders := st.renders + 1 } ∧
    addShape "line" st = saveState { st with
      scene := { st.scene with objects := st.scene.objects ++
        [FabricObject.line 50 100 200 100 st.elementColor 2] },
      selected := some st.scene.objects.length,
      renders := st.renders + 1 } ∧
    (addShape "rectangle" st).past.length = st.past.length + 1 ∧
    (addShape "circle" st).past.length = st.past.length + 1 ∧
    (addShape "triangle" st).past.length = st.past.length + 1 ∧
    (addShape "line" st).past.length = st.past.length + 1 :=
  ⟨rfl, rfl, rfl, rfl, rfl, rfl, rfl, rfl⟩

/-- A concrete state with objects present but nothing selected. -/
def stNoSel : EditorState :=
  { scene := { objects := [FabricObject.rect 100 100 "#e2e8f0" 100 100], background := "#ffffff" },
    selected := none, past := [stringifyScene emptyScene], future := [],
    fontSize := 20, fontFamily := "Arial", fontColor := "#000000",
    elementColor := "#e2e8f0", renders := 0, toasts := [] }

/-- C6 counterexample: deleteSelected with no selection is a completely
silent return — the state is unchanged and in particular no user-visible
notice is issued, contradicting the claim that every selection-requiring
operation reports a notice when invoked without a selection. -/
theorem deleteSelected_no_selection_silent :
    stNoSel.selected = none ∧
    deleteSelected stNoSel = stNoSel ∧
    (deleteSelected stNoSel).toasts = stNoSel.toasts :=
  ⟨rfl, rfl, rfl⟩

/-- C6 amended: with no selection, the relative and extreme layer moves
report the select-first notice and change nothing else — no object-list
mutation, no record, no render — while deleteSelected is a silent, total
no-op that issues no notice at all. -/
theorem no_selection_ops_frame (st : EditorState) (h : st.selected = none) :
    deleteSelected st = st ∧
    moveLayer "up" st = { st with toasts := st.toasts ++ ["Please select an element first!"] } ∧
    moveLayer "down" st = { st with toasts := st.toasts ++ ["Please select an element first!"] } ∧
    bringToFront st = { st with toasts := st.toasts ++ ["Please select an element first!"] } ∧
    sendToBack st = { st with toasts := st.toasts ++ ["Please select an element first!"] } := by
  have hao : getActiveObject st = none := by simp [getActiveObject, h]
  exact ⟨by simp [deleteSelected, hao], by simp [moveLayer, hao],
         by simp [moveLayer, hao], by simp [bringToFront, hao], by simp [sendToBack, hao]⟩

/-- Witness for the amended C6 at a concrete unselected state. -/
theorem no_selection_ops_frame_witness :
    deleteSelected stNoSel = stNoSel ∧
    moveLayer "up" stNoSel =
      { stNoSel with toasts := stNoSel.toasts ++ ["Please select an element first!"] } ∧
    moveLayer "down" stNoSel =
      { stNoSel with toasts := stNoSel.toasts ++ ["Please select an element first!"] } ∧
    bringToFront stNoSel =
      { stNoSel with toasts := stNoSel.toasts ++ ["Please select an element first!"] } ∧
    sendToBack stNoSel =
      { stNoSel with toasts := stNoSel.toasts ++ ["Please select an element first!"] } :=
  no_selection_ops_frame stNoSel rfl

/-- C7: a change of any style control, with an object selected, overwrites
exactly the relevant style fields of that object in place — text objects take
the font family, font color and font size; lines take the element color as
stroke; every other shape takes the element color as fill — re-renders once,
and pushes no history entry: past and future are untouched. -/
theorem updateSelectedObject_style_push (st : EditorState) (i : Nat) (o : FabricObject)
    (h1 : st.selected = some i) (h2 : st.scene.objects.get? i = some o) :
    updateSelectedObject st = { st with
      scene := { st.scene with objects := st.scene.objects.set i (restyled st o) },
      renders := st.renders + 1 } ∧
    (updateSelectedObject st).past = st.past ∧
    (updateSelectedObject st).future = st.future ∧
    (∀ text l t ff fl fs, restyled st (FabricObject.itext text l t ff fl fs) =
        FabricObject.itext text l t st.fontFamily st.fontColor st.fontSize) ∧
    (∀ x1 y1 x2 y2 s w, restyled st (FabricObject.line x1 y1 x2 y2 s w) =
        FabricObject.line x1 y1 x2 y2 st.elementColor w) ∧
    (∀ l t f w h, restyled st (FabricObject.rect l t f w h) =
        FabricObject.rect l t st.elementColor w h) ∧
    (∀ l t f r, restyled st (FabricObject.circle l t f r) =
        FabricObject.circle l t st.elementColor r) ∧
    (∀ l t f w h, restyled st (FabricObject.triangle l t f w h) =
        FabricObject.triangle l t st.elementColor w h) ∧
    (∀ l t f w, restyled st (FabricObject.image l t f w) =
        FabricObject.image l t st.elementColor w) := by
  have hao : getActiveObject st = some (i, o) := by
    simp only [getActiveObject, h1]
    simpa using h2
  refine ⟨by simp [updateSelectedObject, hao], by simp [updateSelectedObject, hao],
    by simp [updateSelectedObject, hao], fun _ _ _ _ _ _ => rfl, fun _ _ _ _ _ _ => rfl,
    fun _ _ _ _ _ => rfl, fun _ _ _ _ => rfl, fun _ _ _ _ _ => rfl, fun _ _ _ _ => rfl⟩

/-- The text object of the concrete C7 witness state. -/
def stSelTextObj : FabricObject :=
  FabricObject.itext "hello" 10 20 "Georgia" "#111111" 14

/-- A concrete state with a selected text object and differing style
controls. -/
def stSelText : EditorState :=
  { scene := { objects := [stSelTextObj], background := "#ffffff" },
    selected := some 0, past := [stringifyScene emptyScene], future := [],
    fontSize := 36, fontFamily := "Impact", fontColor := "#222222",
    elementColor := "#333333", renders := 5, toasts := [] }

/-- Witness for C7 at a concrete selected text object. -/
theorem updateSelectedObject_style_push_witness :
    updateSelectedObject stSelText = { stSelText with
      scene := { stSelText.scene with
                 objects := stSelText.scene.objects.set 0 (restyled stSelText stSelTextObj) },
      renders := stSelText.renders + 1 } :=
  (updateSelectedObject_style_push stSelText 0 stSelTextObj rfl rfl).1

/-- C8: bringToFront on a selected object moves it to the last, topmost-paint
index of the object list — the rest of the list is the original list with
that object removed, so the relative order of all other objects is preserved
— records the new scene by pushing one snapshot onto past, and clears
future.  The hypothesis covers every prior position of the object, hence any
prior sequence of relative moves. -/
theorem bringToFront_places_last (st : EditorState) (i : Nat) (o : FabricObject)
    (h : getActiveObject st = some (i, o)) :
    (bringToFront st).scene.objects = st.scene.objects.eraseIdx i ++ [o] ∧
    ((bringToFront st).scene.objects).getLast? = some o ∧
    (bringToFront st).past =
      stringifyScene { st.scene with objects := st.scene.objects.eraseIdx i ++ [o] } :: st.past ∧
    (bringToFront st).future = [] := by
  refine ⟨?_, ?_, ?_, ?_⟩ <;>
    simp [bringToFront, h, saveState, List.getLast?_concat]

/-- A concrete three-object state with the circle selected on top, before the
two relative backward moves of Scenario C. -/
def stThree : EditorState :=
  { scene := { objects := [FabricObject.rect 100 100 "#e2e8f0" 100 100,
                           FabricObject.line 50 100 200 100 "#e2e8f0" 2,
                           FabricObject.circle 100 100 "#e2e8f0" 50],
               background := "#ffffff" },
    selected := some 2, past := [stringifyScene emptyScene], future := [],
    fontSize := 20, fontFamily := "Arial", fontColor := "#000000",
    elementColor := "#e2e8f0", renders := 0, toasts := [] }

/-- Scenario C's state: the selected circle after two relative backward
moves, now at the bottom of the z-order. -/
def stThreeMoved : EditorState :=
  moveLayer "down" (moveLayer "down" stThree)

/-- Witness for C8 on Scenario C: after two backward moves the circle sits at
index 0, and bringToFront still puts it at the topmost-paint index. -/
theorem bringToFront_places_last_witness :
    (bringToFront stThreeMoved).scene.objects =
      stThreeMoved.scene.objects.eraseIdx 0 ++ [FabricObject.circle 100 100 "#e2e8f0" 50] ∧
    ((bringToFront stThreeMoved).scene.objects).getLast? =
      some (FabricObject.circle 100 100 "#e2e8f0" 50) := by
  have h := bringToFront_places_last stThreeMoved 0
    (FabricObject.circle 100 100 "#e2e8f0" 50) (by decide)
  exact ⟨h.1, h.2.1⟩

/-- The one-rectangle scene of the C4 counterexample. -/
def sceneOneRect : Scene :=
  { objects := [FabricObject.rect 100 100 "#e2e8f0" 100 100], background := "#ffffff" }

/-- A state whose previous-state snapshot (the entry under the top of past)
is malformed, so the restore attempted by undo fails. -/
def stBadSnap : EditorState :=
  { scene := sceneOneRect, selected := none,
    past := [stringifyScene sceneOneRect, Snap.malformed], future := [],
    fontSize := 20, fontFamily := "Arial", fontColor := "#000000",
    elementColor := "#e2e8f0", renders := 0, toasts := [] }

/-- C4 counterexample: undo pops past and pushes future before parsing, so at
this state the restore fails (the snapshot is malformed and parsing fails)
and yet both history stacks are left mutated — only the scene is as before —
refuting the all-or-nothing transactional claim. -/
theorem undo_restore_failure_mutates_stacks :
    parseSnap Snap.malformed = none ∧
    stBadSnap.past = [stringifyScene sceneOneRect, Snap.malformed] ∧
    undo stBadSnap =
      { stBadSnap with past := [Snap.malformed], future := [stringifyScene sceneOneRect] } ∧
    (undo stBadSnap).past ≠ stBadSnap.past ∧
    (undo stBadSnap).future ≠ stBadSnap.future ∧
    (undo stBadSnap).scene = stBadSnap.scene := by
  refine ⟨rfl, rfl, rfl, by decide, by decide, rfl⟩

/-- C4 amended: when the snapshot to be restored is malformed, undo and redo
leave the scene, the selection, the render count and the notifications
exactly as before, but the history stacks are still shifted exactly as in the
success case — the failed restore does not roll the stacks back. -/
theorem restore_failure_moves_stacks_only (st : EditorState) (c p : Snap) (rest : List Snap) :
    (st.past = c :: p :: rest → parseSnap p = none →
      undo st = { st with past := p :: rest, future := c :: st.future }) ∧
    (st.future = c :: rest → parseSnap c = none →
      redo st = { st with future := rest, past := c :: st.past }) := by
  constructor
  · intro hp hf
    simp [undo, hp, hf]
  · intro hp hf
    simp [redo, hp, hf]

/-- A state with malformed snapshots in position for both a failing undo and
a failing redo. -/
def stBadBoth : EditorState :=
  { scene := sceneOneRect, selected := none,
    past := [stringifyScene sceneOneRect, Snap.malformed],
    future := [Snap.malformed], fontSize := 20, fontFamily := "Arial",
    fontColor := "#000000", elementColor := "#e2e8f0", renders := 0, toasts := [] }

/-- Witness for the amended C4 at a concrete state with malformed snapshots:
the failing undo and the failing redo each move the stacks and nothing
else. -/
theorem restore_failure_moves_stacks_only_witness :
    undo stBadBoth = { stBadBoth with
      past := [Snap.malformed],
      future := stringifyScene sceneOneRect :: stBadBoth.future } ∧
    redo stBadBoth = { stBadBoth with
      future := [],
      past := Snap.malformed :: stBadBoth.past } :=
  ⟨(restore_failure_moves_stacks_only stBadBoth (stringifyScene sceneOneRect)
      Snap.malformed []).1 rfl rfl,
   (restore_failure_moves_stacks_only stBadBoth Snap.malformed
      Snap.malformed []).2 rfl rfl⟩

/-- Characterization of a nonempty sequence of recorded edits: after editing
and recording the scenes of ds followed by g, the scene is g, past holds the
snapshots of the whole sequence newest-first on top of the prior past, and
future is empty. -/
theorem recordEdits_concat (ds : List Scene) : ∀ (g sc : Scene) (sel : Option Nat)
    (p f : List Snap) (fs : Int) (ff fc ec : String) (r : Nat) (ts : List String),
    recordEdits (ds ++ [g]) ⟨sc, sel, p, f, fs, ff, fc, ec, r, ts⟩ =
      ⟨g, sel, (List.map stringifyScene (ds ++ [g])).reverse ++ p, [], fs, ff, fc, ec, r, ts⟩ := by
  induction ds with
  | nil =>
      intro g sc sel p f fs ff fc ec r ts
      simp [recordEdits, saveState]
  | cons d ds ih =>
      intro g sc sel p f fs ff fc ec r ts
      have h1 : recordEdits ((d :: ds) ++ [g]) ⟨sc, sel, p, f, fs, ff, fc, ec, r, ts⟩ =
          recordEdits (ds ++ [g])
            ⟨d, sel, stringifyScene d :: p, [], fs, ff, fc, ec, r, ts⟩ := rfl
      rw [h1, ih]
      simp [List.append_assoc]

/-- Iterated undo over a history whose past holds the well-formed snapshots
of the scenes e :: es on top of the snapshot of s0: undoing once per element
of e :: es lands on the scene s0 with past reduced to its snapshot alone and
every undone snapshot pushed onto future in reverse order. -/
theorem undo_iter (es : List Scene) : ∀ (e s0 : Scene) (f : List Snap) (sc : Scene)
    (sel : Option Nat) (fs : Int) (ff fc ec : String) (r : Nat) (ts : List String),
    undo^[es.length + 1]
        ⟨sc, sel, List.map stringifyScene (e :: es) ++ [stringifyScene s0],
          f, fs, ff, fc, ec, r, ts⟩ =
      ⟨s0, none, [stringifyScene s0], (List.map stringifyScene (e :: es)).reverse ++ f,
        fs, ff, fc, ec, r + (es.length + 1),
        ts ++ List.replicate (es.length + 1) "Undo successful!"⟩ := by
  induction es with
  | nil =>
      intro e s0 f sc sel fs ff fc ec r ts
      simp [undo, parseSnap, stringifyScene]
  | cons e2 es ih =>
      intro e s0 f sc sel fs ff fc ec r ts
      simp only [List.length_cons]
      rw [Function.iterate_succ_apply]
      have h1 : undo ⟨sc, sel,
          List.map stringifyScene (e :: e2 :: es) ++ [stringifyScene s0],
          f, fs, ff, fc, ec, r, ts⟩ =
          ⟨e2, none, List.map stringifyScene (e2 :: es) ++ [stringifyScene s0],
            stringifyScene e :: f, fs, ff, fc, ec, r + 1,
            ts ++ ["Undo successful!"]⟩ := by
        simp [undo, parseSnap, stringifyScene]
      rw [h1, ih]
      simp [List.append_assoc, List.replicate_succ]
      omega

/-- Iterated redo over a future holding the well-formed snapshots of
gs ++ [g] oldest-first: redoing once per element empties future, pushes every
snapshot onto past newest-first, and lands on the last scene g. -/
theorem redo_iter (gs : List Scene) : ∀ (g : Scene) (p : List Snap) (sc : Scene)
    (sel : Option Nat) (fs : Int) (ff fc ec : String) (r : Nat) (ts : List String),
    redo^[gs.length + 1]
        ⟨sc, sel, p, List.map stringifyScene (gs ++ [g]), fs, ff, fc, ec, r, ts⟩ =
      ⟨g, none, (List.map stringifyScene (gs ++ [g])).reverse ++ p, [],
        fs, ff, fc, ec, r + (gs.length + 1),
        ts ++ List.replicate (gs.length + 1) "Redo successful!"⟩ := by
  induction gs with
  | nil =>
      intro g p sc sel fs ff fc ec r ts
      simp [redo, parseSnap, stringifyScene]
  | cons a gs ih =>
      intro g p sc sel fs ff fc ec r ts
      simp only [List.length_cons]
      rw [Function.iterate_succ_apply]
      have h1 : redo ⟨sc, sel, p,
          List.map stringifyScene ((a :: gs) ++ [g]), fs, ff, fc, ec, r, ts⟩ =
          ⟨a, none, stringifyScene a :: p, List.map stringifyScene (gs ++ [g]),
            fs, ff, fc, ec, r + 1, ts ++ ["Redo successful!"]⟩ := by
        simp [redo, parseSnap, stringifyScene]
      rw [h1, ih]
      simp [List.append_assoc, List.replicate_succ]
      omega

/-- C1: starting from the mount-effect history, for any sequence of recorded
edits, undoing once per edit and then redoing once per edit restores the
scene, the past stack and the future stack to exactly their values after the
edits; past again holds the snapshots S0 (the initial empty scene) through SN
newest-first, and its top is the serialization of the final scene. -/
theorem undo_redo_inverses_on_history (ds : List Scene) :
    (redo^[ds.length] (undo^[ds.length] (recordEdits ds initCanvas))).scene =
      (recordEdits ds initCanvas).scene ∧
    (redo^[ds.length] (undo^[ds.length] (recordEdits ds initCanvas))).past =
      (recordEdits ds initCanvas).past ∧
    (redo^[ds.length] (undo^[ds.length] (recordEdits ds initCanvas))).future =
      (recordEdits ds initCanvas).future ∧
    (recordEdits ds initCanvas).past =
      (List.map stringifyScene ds).reverse ++ [stringifyScene emptyScene] ∧
    (recordEdits ds initCanvas).past.head? =
      some (stringifyScene (recordEdits ds initCanvas).scene) := by
  rcases List.eq_nil_or_concat' ds with rfl | ⟨L, g, rfl⟩
  · exact ⟨rfl, rfl, rfl, rfl, rfl⟩
  · have hinit : initCanvas = ⟨emptyScene, none, [stringifyScene emptyScene], [], 20, "Arial",
        "#000000", "#e2e8f0", 0, ["Canvas ready!"]⟩ := rfl
    have hrec : recordEdits (L ++ [g]) initCanvas =
        ⟨g, none, (List.map stringifyScene (L ++ [g])).reverse ++ [stringifyScene emptyScene],
          [], 20, "Arial", "#000000", "#e2e8f0", 0, ["Canvas ready!"]⟩ := by
      rw [hinit, recordEdits_concat]
    have hpastform : (List.map stringifyScene (L ++ [g])).reverse ++ [stringifyScene emptyScene] =
        List.map stringifyScene (g :: L.reverse) ++ [stringifyScene emptyScene] := by
      simp
    have hundo := undo_iter L.reverse g emptyScene [] g none 20 "Arial" "#000000" "#e2e8f0"
      0 ["Canvas ready!"]
    simp only [List.length_reverse, List.append_nil] at hundo
    have hfutform : (List.map stringifyScene (g :: L.reverse)).reverse =
        List.map stringifyScene (L ++ [g]) := by
      simp
    rw [hfutform] at hundo
    have hredo := redo_iter L g [stringifyScene emptyScene] emptyScene none 20 "Arial"
      "#000000" "#e2e8f0" (0 + (L.length + 1))
      (["Canvas ready!"] ++ List.replicate (L.length + 1) "Undo successful!")
    have hlen : (L ++ [g]).length = L.length + 1 := by simp
    have hchain : redo^[(L ++ [g]).length] (undo^[(L ++ [g]).length]
        (recordEdits (L ++ [g]) initCanvas)) =
        ⟨g, none, (List.map stringifyScene (L ++ [g])).reverse ++ [stringifyScene emptyScene],
          [], 20, "Arial", "#000000", "#e2e8f0",
          0 + (L.length + 1) + (L.length + 1),
          ["Canvas ready!"] ++ List.replicate (L.length + 1) "Undo successful!"
            ++ List.replicate (L.length + 1) "Redo successful!"⟩ := by
      rw [hrec, hlen]
      rw [show (⟨g, none,
          (List.map stringifyScene (L ++ [g])).reverse ++ [stringifyScene emptyScene],
          [], 20, "Arial", "#000000", "#e2e8f0", 0, ["Canvas ready!"]⟩ : EditorState) =
        ⟨g, none, List.map stringifyScene (g :: L.reverse) ++ [stringifyScene emptyScene],
          [], 20, "Arial", "#000000", "#e2e8f0", 0, ["Canvas ready!"]⟩ from by rw [hpastform]]
      rw [hundo, hredo]
    refine ⟨?_, ?_, ?_, ?_, ?_⟩
    · rw [hchain, hrec]
    · rw [hchain, hrec]
    · rw [hchain, hrec]
    · rw [hrec]
    · rw [hrec]
      simp
